import Mathlib

/-!
# Verification of the Pinkys_backend_todo reminder subsystem

Shallow embedding of the task-management backend's data model and of the
operations the specification's claims concern:

* `app/models.py` — `User`, `Task`, `Reminder`, `Note` rows (DB-generated
  fields such as ids are carried as plain data; timestamps are modelled as
  integers, seconds since an arbitrary epoch).
* `app/utils/scheduler.py` — `check_reminders`, `_dispatch`, `_send_email`,
  `_send_sms`.  External transports (SendGrid, Twilio) are modelled as
  function parameters that either return a success value or raise
  (`Except.error`, the Python exception).  An uncaught Python exception in
  the scan is represented by the `exn` field of the result; since
  `db.session.commit()` is only reached when no exception occurs, the store
  is unchanged in that case (the session is rolled back at context exit).
* `app/routes/reminders.py` — `snooze_reminder`.
* `app/routes/notes.py` — `create_note`, `update_note`.
* `app/utils/helpers.py` — `validate_task_payload`, and
  `app/routes/tasks.py` — `create_task`.

JSON request bodies are modelled as records of `Option` fields: `none` means
the key is absent from the payload (`data.get(k)` misses), `some v` that it is
present with value `v`.
-/

namespace Pinkys

/-- `app/models.py` `User` row (fields the scheduler and routes read). -/
structure User where
  id : Nat
  email : String
  username : String
  deriving Repr, DecidableEq

/-- `app/models.py` `Task` row. -/
structure Task where
  id : Nat
  user_id : Nat
  title : String
  description : String
  due_date : Option Int
  priority : String
  status : String
  is_recurring : Bool
  recurrence_rule : Option String
  deriving Repr, DecidableEq

/-- `app/models.py` `Reminder` row. -/
structure Reminder where
  id : Nat
  task_id : Nat
  trigger_at : Int
  channel : String
  is_sent : Bool
  created_at : Int
  deriving Repr, DecidableEq

/-- `app/models.py` `Note` row. -/
structure Note where
  user_id : Nat
  task_id : Option Nat
  title : String
  content : String
  color : String
  is_pinned : Bool
  deriving Repr, DecidableEq

/-- The relational store the app reads and writes (the tables as row lists). -/
structure Store where
  users : List User
  tasks : List Task
  reminders : List Reminder
  deriving Repr, DecidableEq

/-- ORM join `reminder.task`: the task row with the reminder's `task_id`,
if it still exists. -/
def Store.findTask (st : Store) (tid : Nat) : Option Task :=
  st.tasks.find? (fun t => t.id == tid)

/-- ORM join `task.owner`: the user row with the task's `user_id`,
if it still exists. -/
def Store.findUser (st : Store) (uid : Nat) : Option User :=
  st.users.find? (fun u => u.id == uid)

/-- The scheduler's world: the store plus the process wall clock that
`datetime.now(timezone.utc)` reads.  `check_reminders(app)` receives no time
argument; the clock is ambient state it samples itself. -/
structure World where
  store : Store
  clock : Int
  deriving Repr, DecidableEq

/-- Binary outcome of a channel sender: which of the two log lines the
`try/except` in `_send_email` / `_send_sms` emits. -/
inductive Outcome where
  | delivered
  | failed
  deriving Repr, DecidableEq

/-- The message `sendgrid.helpers.mail.Mail(...)` built by `_send_email`. -/
structure EmailMsg where
  from_email : String
  to_emails : String
  subject : String
  html_content : String
  deriving Repr, DecidableEq

/-- The external transports and environment of `scheduler.py`: `sg.send` and
`client.messages.create` either return a success value or raise
(`Except.error` is the Python exception); `mailFrom` / `twilioFrom` are the
`os.getenv` values.  The scheduler is parametric in this collaborator. -/
structure Transport where
  mailFrom : String
  sendgridSend : EmailMsg → Except String Nat
  twilioFrom : String
  twilioCreate : String → String → String → Except String String

/-- Executable stand-in for the external `datetime.strftime` library call;
no claim depends on the formatted text, only on which string is chosen. -/
def strftime (fmt : String) (t : Int) : String :=
  fmt ++ "/" ++ toString t

/-- The `try/except Exception` wrapper both senders put around their
transport call: a transport success logs delivery, a raised exception is
caught and logged as a failure; either way the sender returns normally. -/
def tryOutcome {α : Type} : Except String α → Except String Outcome
  | Except.ok _ => Except.ok Outcome.delivered
  | Except.error _ => Except.ok Outcome.failed

/-- `_send_email` (scheduler.py lines 64-93).  Builds the mail and calls the
SendGrid transport inside `try/except Exception`: a transport error is caught
and logged, producing a failed outcome; the function itself never raises,
hence the result is always `Except.ok`. -/
def sendEmail (tr : Transport) (to_email : String) (task_title : String)
    (task_description : String) (due_date : Option Int) :
    Except String Outcome :=
  let due := match due_date with
    | some d => strftime "%d %b %Y at %H:%M" d
    | none => "No due date"
  let message : EmailMsg :=
    { from_email := tr.mailFrom
      to_emails := to_email
      subject := "Reminder: " ++ task_title
      html_content :=
        "Task Reminder: " ++ task_title ++ " / " ++
        (if task_description == "" then "No description provided."
         else task_description) ++
        " / Due: " ++ due ++ " / Pinkys Todo App" }
  tryOutcome (tr.sendgridSend message)

/-- `_send_sms` (scheduler.py lines 96-115).  Same `try/except Exception`
shape around the Twilio client; never raises. -/
def sendSms (tr : Transport) (task_title : String) (due_date : Option Int) :
    Except String Outcome :=
  let due := match due_date with
    | some d => strftime "%d %b %Y at %H:%M" d
    | none => "No due date"
  let body := "Pinkys Reminder: " ++ task_title ++ " is due " ++ due
  tryOutcome (tr.twilioCreate body tr.twilioFrom "+254700000000")

/-- The channel routing in `_dispatch` (scheduler.py lines 46-61), reached
once `task` and `user` resolved: `email` and `sms` call their sender, the
`push` branch is a stub that only logs (an unconditional success), any other
channel value falls through with no sender call (`none` outcome). -/
def routeChannel (tr : Transport) (task : Task) (user : User)
    (channel : String) : Except String (Option Outcome) :=
  if channel == "email" then
    (sendEmail tr user.email task.title task.description task.due_date).map some
  else if channel == "sms" then
    (sendSms tr task.title task.due_date).map some
  else if channel == "push" then
    Except.ok (some Outcome.delivered)
  else
    Except.ok none

/-- `task = reminder.task` followed by the attribute access `task.owner`:
when the task row is gone the relationship is `None` and the access raises
`AttributeError`. -/
def getattrTask (o : Option Task) : Except String Task :=
  match o with
  | none => Except.error "AttributeError: NoneType has no attribute owner"
  | some t => Except.ok t

/-- `user = task.owner` followed by the attribute access `user.email` in the
log line: a missing owner row raises `AttributeError`. -/
def getattrUser (o : Option User) : Except String User :=
  match o with
  | none => Except.error "AttributeError: NoneType has no attribute email"
  | some u => Except.ok u

/-- `_dispatch` (scheduler.py lines 39-61).  Resolves `reminder.task` and
`task.owner`; a missing row means the next attribute access on `None` raises
`AttributeError`, which nothing in `_dispatch` or `check_reminders` catches
(`Except.error`).  Otherwise routes to the sender for `reminder.channel`. -/
def dispatch (tr : Transport) (st : Store) (r : Reminder) :
    Except String (Option Outcome) :=
  (getattrTask (st.findTask r.task_id)).bind (fun task =>
    (getattrUser (st.findUser task.user_id)).bind (fun user =>
      routeChannel tr task user r.channel))

/-- The selection predicate of the scan query:
`Reminder.trigger_at <= now, Reminder.is_sent == False`. -/
def isDue (now : Int) (r : Reminder) : Bool :=
  decide (r.trigger_at ≤ now) && !r.is_sent

/-- The `due` list the scan query returns (scheduler.py lines 25-28). -/
def dueFilter (rs : List Reminder) (now : Int) : List Reminder :=
  rs.filter (isDue now)

/-- What one scan invocation did: ids handed to `_dispatch` in order, the
per-reminder sender outcomes of the dispatches that completed, and the
uncaught exception if one aborted the loop. -/
structure ScanAcc where
  attempts : List Nat
  outcomes : List (Nat × Option Outcome)
  exn : Option String
  deriving Repr, DecidableEq

/-- The `for reminder in due` loop of `check_reminders` (lines 30-32): each
reminder is handed to `_dispatch`; an uncaught exception stops the loop at
that reminder, later reminders are not reached. -/
def scanGo (tr : Transport) (st : Store) : List Reminder → ScanAcc
  | [] => { attempts := [], outcomes := [], exn := none }
  | r :: rest =>
    match dispatch tr st r with
    | Except.error e => { attempts := [r.id], outcomes := [], exn := some e }
    | Except.ok oc =>
      let acc := scanGo tr st rest
      { attempts := r.id :: acc.attempts
        outcomes := (r.id, oc) :: acc.outcomes
        exn := acc.exn }

/-- Result of one `check_reminders` invocation: the store after the
(possibly absent) commit, plus the scan record. -/
structure ScanResult where
  store : Store
  attempts : List Nat
  outcomes : List (Nat × Option Outcome)
  exn : Option String
  deriving Repr, DecidableEq

/-- `check_reminders` (scheduler.py lines 19-36).  Samples
`now = datetime.now(timezone.utc)` from the ambient clock itself, selects the
due unsent reminders, loops `_dispatch(reminder); reminder.is_sent = True`
over them, then `db.session.commit()`.  The loop body marks every reminder it
passes regardless of the dispatch outcome, so after a completed loop the
committed store has `is_sent=True` exactly on the rows matching the selection
predicate at `now`.  If the loop raised, the commit is never reached and the
session's in-memory marks are rolled back: the store is unchanged. -/
def checkReminders (tr : Transport) (w : World) : ScanResult :=
  let now := w.clock
  let due := dueFilter w.store.reminders now
  let acc := scanGo tr w.store due
  { store :=
      if acc.exn.isSome then w.store
      else
        { w.store with
          reminders := w.store.reminders.map (fun r =>
            if isDue now r then { r with is_sent := true } else r) }
    attempts := acc.attempts
    outcomes := acc.outcomes
    exn := acc.exn }

/-- A reminder whose `Reminder → Task → User` join resolves in the store. -/
def joinOk (st : Store) (r : Reminder) : Bool :=
  ((st.findTask r.task_id).bind (fun t => st.findUser t.user_id)).isSome

/-- Referential integrity of the store, as the schema's non-nullable foreign
keys and cascade deletes (`models.py`) guarantee for any persisted state:
every reminder's task and that task's owner exist. -/
def storeWF (st : Store) : Bool :=
  st.reminders.all (fun r => joinOk st r)

/-- `Except` result is a success. -/
def exceptOk {ε α : Type} : Except ε α → Bool
  | Except.ok _ => true
  | Except.error _ => false

/-! ## Snooze endpoint (`app/routes/reminders.py`) -/

/-- `Task.query.filter_by(id=task_id, user_id=g.current_user.id).first()`. -/
def Store.findTaskFor (st : Store) (tid uid : Nat) : Option Task :=
  st.tasks.find? (fun t => t.id == tid && t.user_id == uid)

/-- `Reminder.query.filter_by(id=reminder_id, task_id=task_id).first()`. -/
def Store.findReminderIn (st : Store) (rid tid : Nat) : Option Reminder :=
  st.reminders.find? (fun r => r.id == rid && r.task_id == tid)

/-- The three ways `snooze_reminder` returns: the two 404 branches and the
200 branch carrying the committed store and the updated reminder row. -/
inductive SnoozeRes where
  | taskNotFound
  | reminderNotFound
  | ok (st : Store) (r : Reminder)
  deriving Repr, DecidableEq

/-- `snooze_reminder` (reminders.py lines 152-207).  `payload` is the
`minutes` value of the JSON body after Python's `int(...)` conversion;
`none` means the key (or the whole body) was absent, in which case
`data.get("minutes", 10)` yields the default 10.  No bound or sign check is
performed.  `timedelta(minutes=m)` adds `m * 60` seconds. -/
def snoozeReminder (st : Store) (uid tid rid : Nat) (payload : Option Int) :
    SnoozeRes :=
  match st.findTaskFor tid uid with
  | none => SnoozeRes.taskNotFound
  | some _task =>
    match st.findReminderIn rid tid with
    | none => SnoozeRes.reminderNotFound
    | some reminder =>
      let minutes := payload.getD 10
      let updated :=
        { reminder with
          trigger_at := reminder.trigger_at + minutes * 60
          is_sent := false }
      SnoozeRes.ok
        { st with
          reminders := st.reminders.map (fun r =>
            if r.id == reminder.id then updated else r) }
        updated

/-! ## Notes routes (`app/routes/notes.py`) -/

/-- Executable model of Python's `str.strip()`: drop whitespace from both
ends (written over the character list so that it evaluates by kernel
reduction). -/
def pyStrip (s : String) : String :=
  ⟨((s.data.dropWhile Char.isWhitespace).reverse.dropWhile
      Char.isWhitespace).reverse⟩

/-- `VALID_COLORS` (notes.py line 9). -/
def VALID_COLORS : List String := ["yellow", "blue", "green", "pink", "white"]

/-- JSON body of a note create/update request; `none` = key absent. -/
structure NotePayload where
  title : Option String
  content : Option String
  color : Option String
  is_pinned : Option Bool
  task_id : Option Nat
  deriving Repr, DecidableEq

/-- A note route either rejects with a 400 validation error or commits a
note row. -/
inductive NoteRes where
  | err (msg : String)
  | ok (n : Note)
  deriving Repr, DecidableEq

/-- `create_note` (notes.py lines 74-120).  Rejects a missing or
whitespace-only `content` (`not data.get("content", "").strip()`), then an
invalid `color`; stores the stripped content. -/
def createNote (uid : Nat) (data : NotePayload) : NoteRes :=
  if pyStrip (data.content.getD "") == "" then
    NoteRes.err "content is required"
  else if !(VALID_COLORS.contains (data.color.getD "yellow")) then
    NoteRes.err "color must be one of VALID_COLORS"
  else
    NoteRes.ok
      { user_id := uid
        task_id := data.task_id
        title := data.title.getD ""
        content := pyStrip (data.content.getD "")
        color := data.color.getD "yellow"
        is_pinned := data.is_pinned.getD false }

/-- `update_note` (notes.py lines 160-209), applied to the note row it found.
Only `color` is validated (when the key is present); every other field is
taken from the payload with the current value as default, and `content` is
stripped with no emptiness check. -/
def updateNote (note : Note) (data : NotePayload) : NoteRes :=
  if data.color.isSome && !(VALID_COLORS.contains (data.color.getD "")) then
    NoteRes.err "color must be one of VALID_COLORS"
  else
    NoteRes.ok
      { note with
        title := data.title.getD note.title
        content := pyStrip (data.content.getD note.content)
        color := data.color.getD note.color
        is_pinned := data.is_pinned.getD note.is_pinned
        task_id := data.task_id <|> note.task_id }

/-! ## Task payload validation (`app/utils/helpers.py`, `app/routes/tasks.py`) -/

/-- `VALID_PRIORITIES` (helpers.py line 47). -/
def VALID_PRIORITIES : List String := ["low", "medium", "high"]

/-- `VALID_STATUSES` (helpers.py line 48). -/
def VALID_STATUSES : List String := ["pending", "completed", "archived"]

/-- `VALID_RECURRENCE` (helpers.py line 50). -/
def VALID_RECURRENCE : List String := ["daily", "weekly", "monthly"]

/-- JSON body of a task create request; `none` = key absent.  `due_date` is
carried already parsed (`parse_datetime`). -/
structure TaskPayload where
  title : Option String
  description : Option String
  due_date : Option Int
  priority : Option String
  status : Option String
  is_recurring : Option Bool
  recurrence_rule : Option String
  deriving Repr, DecidableEq

/-- `data.get("recurrence_rule") not in VALID_RECURRENCE`, negated: an absent
key gives Python `None`, which is never in the set. -/
def ruleValid (o : Option String) : Bool :=
  o.elim false (fun s => VALID_RECURRENCE.contains s)

/-- `validate_task_payload` (helpers.py lines 53-64); the checks run in
source order and append their error strings. -/
def validate_task_payload (data : TaskPayload) : List String :=
  (if pyStrip (data.title.getD "") == "" then ["title is required"] else []) ++
  (if data.priority.isSome &&
      !(VALID_PRIORITIES.contains (data.priority.getD "")) then
    ["priority must be one of VALID_PRIORITIES"] else []) ++
  (if data.status.isSome &&
      !(VALID_STATUSES.contains (data.status.getD "")) then
    ["status must be one of VALID_STATUSES"] else []) ++
  (if data.is_recurring.getD false && !(ruleValid data.recurrence_rule) then
    ["recurrence_rule must be one of VALID_RECURRENCE"] else [])

/-- A task create either rejects with the validation errors or commits a
task row. -/
inductive TaskRes where
  | err (errs : List String)
  | ok (t : Task)
  deriving Repr, DecidableEq

/-- `create_task` (tasks.py lines 106-121), for the current user `uid`.  The
row id is DB-assigned and irrelevant to the claims; carried as 0.  `status`
takes the model's column default, and `recurrence_rule` is stored exactly as
sent, whatever `is_recurring` is. -/
def createTask (uid : Nat) (data : TaskPayload) : TaskRes :=
  let errs := validate_task_payload data
  if !errs.isEmpty then TaskRes.err errs
  else
    TaskRes.ok
      { id := 0
        user_id := uid
        title := pyStrip (data.title.getD "")
        description := data.description.getD ""
        due_date := data.due_date
        priority := data.priority.getD "medium"
        status := "pending"
        is_recurring := data.is_recurring.getD false
        recurrence_rule := data.recurrence_rule }

/-! ## Concrete fixtures used by witnesses and counterexamples -/

/-- A transport whose every external call raises. -/
def failTr : Transport :=
  { mailFrom := "noreply@pinkys.app"
    sendgridSend := fun _ => Except.error "ConnectionError"
    twilioFrom := "+15550000000"
    twilioCreate := fun _ _ _ => Except.error "ConnectionError" }

/-- A transport whose every external call succeeds. -/
def okTr : Transport :=
  { mailFrom := "noreply@pinkys.app"
    sendgridSend := fun _ => Except.ok 202
    twilioFrom := "+15550000000"
    twilioCreate := fun _ _ _ => Except.ok "SM1" }

/-- Fixture user. -/
def user1 : User := { id := 1, email := "u@example.com", username := "u" }

/-- Fixture task owned by `user1`. -/
def task1 : Task :=
  { id := 1, user_id := 1, title := "Task One", description := ""
    due_date := none, priority := "medium", status := "pending"
    is_recurring := false, recurrence_rule := none }

/-- Fixture email reminder on `task1`, due at time 100. -/
def remEmail : Reminder :=
  { id := 1, task_id := 1, trigger_at := 100, channel := "email"
    is_sent := false, created_at := 0 }

/-- Fixture push reminder on `task1`, due at time 100. -/
def remPush : Reminder :=
  { id := 2, task_id := 1, trigger_at := 100, channel := "push"
    is_sent := false, created_at := 0 }

/-- Fixture reminder whose `task_id` resolves to no task row. -/
def remDangling : Reminder :=
  { id := 3, task_id := 99, trigger_at := 100, channel := "email"
    is_sent := false, created_at := 0 }

/-- Store with one user, one task, one due email reminder. -/
def store1 : Store := { users := [user1], tasks := [task1], reminders := [remEmail] }

/-- Store whose first due reminder has a dangling join and whose second is
fine. -/
def storeBroken : Store :=
  { users := [user1], tasks := [task1], reminders := [remDangling, remPush] }

/-- Store with one user, one task and two due reminders (email and push). -/
def store2 : Store :=
  { users := [user1], tasks := [task1], reminders := [remEmail, remPush] }

/-! ## Helper lemmas -/

/-- The catch-all wrapper always returns normally. -/
theorem tryOutcome_ok {α : Type} (e : Except String α) :
    exceptOk (tryOutcome e) = true := by
  cases e <;> rfl

/-- `_send_email` returns normally for every transport behaviour. -/
theorem sendEmail_ok (tr : Transport) (a b c : String) (d : Option Int) :
    exceptOk (sendEmail tr a b c d) = true :=
  tryOutcome_ok _

/-- `_send_sms` returns normally for every transport behaviour. -/
theorem sendSms_ok (tr : Transport) (a : String) (d : Option Int) :
    exceptOk (sendSms tr a d) = true :=
  tryOutcome_ok _

/-- A normally-returning `Except` computation yields a value. -/
theorem exists_ok_of_exceptOk {ε α : Type} {e : Except ε α}
    (h : exceptOk e = true) : ∃ v, e = Except.ok v := by
  cases e with
  | ok v => exact ⟨v, rfl⟩
  | error x => exact absurd h (by simp [exceptOk])

/-- Attribute access on a present task. -/
@[simp] theorem getattrTask_some (t : Task) : getattrTask (some t) = Except.ok t := rfl

/-- Attribute access on a missing task raises. -/
@[simp] theorem getattrTask_none :
    getattrTask none =
      Except.error "AttributeError: NoneType has no attribute owner" := rfl

/-- Attribute access on a present user. -/
@[simp] theorem getattrUser_some (u : User) : getattrUser (some u) = Except.ok u := rfl

/-- Attribute access on a missing user raises. -/
@[simp] theorem getattrUser_none :
    getattrUser none =
      Except.error "AttributeError: NoneType has no attribute email" := rfl

/-- `Except.bind` on a success. -/
@[simp] theorem exceptBind_ok {ε α β : Type} (a : α) (f : α → Except ε β) :
    (Except.ok a : Except ε α).bind f = f a := rfl

/-- `Except.bind` on a raised exception. -/
@[simp] theorem exceptBind_err {ε α β : Type} (e : ε) (f : α → Except ε β) :
    (Except.error e : Except ε α).bind f = Except.error e := rfl

/-- Unfolding `_dispatch` when the task lookup misses. -/
theorem dispatch_eq_of_task_none (tr : Transport) (st : Store) (r : Reminder)
    (h : st.findTask r.task_id = none) :
    dispatch tr st r =
      Except.error "AttributeError: NoneType has no attribute owner" := by
  unfold dispatch
  simp [h]

/-- Unfolding `_dispatch` when the task resolves but the user lookup
misses. -/
theorem dispatch_eq_of_user_none (tr : Transport) (st : Store) (r : Reminder)
    (task : Task) (h1 : st.findTask r.task_id = some task)
    (h2 : st.findUser task.user_id = none) :
    dispatch tr st r =
      Except.error "AttributeError: NoneType has no attribute email" := by
  unfold dispatch
  simp [h1, h2]

/-- Unfolding `_dispatch` when the join resolves. -/
theorem dispatch_eq_of_found (tr : Transport) (st : Store) (r : Reminder)
    (task : Task) (user : User) (h1 : st.findTask r.task_id = some task)
    (h2 : st.findUser task.user_id = some user) :
    dispatch tr st r = routeChannel tr task user r.channel := by
  unfold dispatch
  simp [h1, h2]

/-- The channel routing returns normally, whatever the transport does. -/
theorem routeChannel_ok (tr : Transport) (task : Task) (user : User)
    (channel : String) : ∃ o, routeChannel tr task user channel = Except.ok o := by
  unfold routeChannel
  by_cases he : channel == "email"
  · rw [if_pos he]
    obtain ⟨v, hv⟩ := exists_ok_of_exceptOk
      (sendEmail_ok tr user.email task.title task.description task.due_date)
    rw [hv]
    exact ⟨some v, rfl⟩
  · rw [if_neg he]
    by_cases hs : channel == "sms"
    · rw [if_pos hs]
      obtain ⟨v, hv⟩ := exists_ok_of_exceptOk
        (sendSms_ok tr task.title task.due_date)
      rw [hv]
      exact ⟨some v, rfl⟩
    · rw [if_neg hs]
      by_cases hp : channel == "push"
      · rw [if_pos hp]
        exact ⟨some Outcome.delivered, rfl⟩
      · rw [if_neg hp]
        exact ⟨none, rfl⟩

/-- A resolvable join means `_dispatch` returns normally, whatever the
transport does. -/
theorem dispatch_ok_of_joinOk (tr : Transport) (st : Store) (r : Reminder)
    (h : joinOk st r = true) : ∃ o, dispatch tr st r = Except.ok o := by
  unfold joinOk at h
  cases ht : st.findTask r.task_id with
  | none => rw [ht] at h; simp at h
  | some task =>
    rw [ht, Option.some_bind] at h
    obtain ⟨user, hu⟩ := Option.isSome_iff_exists.mp h
    rw [dispatch_eq_of_found tr st r task user ht hu]
    exact routeChannel_ok tr task user r.channel

/-- An unresolvable join means `_dispatch` raises, whatever the transport
does. -/
theorem dispatch_err_of_not_joinOk (tr : Transport) (st : Store) (r : Reminder)
    (h : joinOk st r = false) : ∃ e, dispatch tr st r = Except.error e := by
  unfold joinOk at h
  cases ht : st.findTask r.task_id with
  | none => exact ⟨_, dispatch_eq_of_task_none tr st r ht⟩
  | some task =>
    rw [ht, Option.some_bind] at h
    cases hu : st.findUser task.user_id with
    | none => exact ⟨_, dispatch_eq_of_user_none tr st r task ht hu⟩
    | some user => rw [hu] at h; simp at h

/-- When every join in the batch resolves, the scan loop finishes without an
exception and hands every batch member to `_dispatch` exactly once, in
order. -/
theorem scanGo_of_all_joinOk (tr : Transport) (st : Store) (l : List Reminder)
    (h : ∀ r ∈ l, joinOk st r = true) :
    (scanGo tr st l).exn = none ∧
    (scanGo tr st l).attempts = l.map Reminder.id := by
  induction l with
  | nil => exact ⟨rfl, rfl⟩
  | cons r rest ih =>
    obtain ⟨o, ho⟩ := dispatch_ok_of_joinOk tr st r (h r (by simp))
    obtain ⟨ihe, iha⟩ := ih (fun x hx => h x (by simp [hx]))
    refine ⟨?_, ?_⟩ <;> simp [scanGo, ho, ihe, iha]

/-- The order in which the scan loop reaches reminders does not depend on
the transport: join resolution alone decides whether a dispatch raises. -/
theorem scanGo_attempts_tr_indep (tr tr2 : Transport) (st : Store)
    (l : List Reminder) :
    (scanGo tr st l).attempts = (scanGo tr2 st l).attempts := by
  induction l with
  | nil => rfl
  | cons r rest ih =>
    by_cases hj : joinOk st r = true
    · obtain ⟨o1, h1⟩ := dispatch_ok_of_joinOk tr st r hj
      obtain ⟨o2, h2⟩ := dispatch_ok_of_joinOk tr2 st r hj
      simp [scanGo, h1, h2, ih]
    · have hj' : joinOk st r = false := by simpa using hj
      obtain ⟨e1, h1⟩ := dispatch_err_of_not_joinOk tr st r hj'
      obtain ⟨e2, h2⟩ := dispatch_err_of_not_joinOk tr2 st r hj'
      simp [scanGo, h1, h2]

/-- A batch containing a reminder with a broken join makes the scan loop end
in an uncaught exception. -/
theorem scanGo_exn_isSome_of_bad (tr : Transport) (st : Store)
    (l : List Reminder) (r0 : Reminder) (hm : r0 ∈ l)
    (hb : joinOk st r0 = false) :
    (scanGo tr st l).exn.isSome = true := by
  induction l with
  | nil => cases hm
  | cons a rest ih =>
    rcases List.mem_cons.mp hm with rfl | htail
    · obtain ⟨e, he⟩ := dispatch_err_of_not_joinOk tr st r0 hb
      simp [scanGo, he]
    · cases hd : dispatch tr st a with
      | error e => simp [scanGo, hd]
      | ok o => simp [scanGo, hd, ih htail]

/-- `check_reminders` forwards the scan loop's attempt order unchanged. -/
theorem checkReminders_attempts (tr : Transport) (w : World) :
    (checkReminders tr w).attempts =
      (scanGo tr w.store (dueFilter w.store.reminders w.clock)).attempts :=
  rfl

/-- `check_reminders` forwards the scan loop's exception unchanged. -/
theorem checkReminders_exn (tr : Transport) (w : World) :
    (checkReminders tr w).exn =
      (scanGo tr w.store (dueFilter w.store.reminders w.clock)).exn :=
  rfl

/-- `check_reminders` forwards the recorded sender outcomes unchanged. -/
theorem checkReminders_outcomes (tr : Transport) (w : World) :
    (checkReminders tr w).outcomes =
      (scanGo tr w.store (dueFilter w.store.reminders w.clock)).outcomes :=
  rfl

/-- When the loop finishes, the committed store is the old one with
`is_sent := true` on exactly the rows the selection predicate matched. -/
theorem checkReminders_store_of_exn_none (tr : Transport) (w : World)
    (h : (checkReminders tr w).exn = none) :
    (checkReminders tr w).store.reminders =
      w.store.reminders.map (fun r =>
        if isDue w.clock r then { r with is_sent := true } else r) := by
  have h' : (scanGo tr w.store (dueFilter w.store.reminders w.clock)).exn
      = none := h
  simp only [checkReminders]
  simp [h']

/-- When the loop raises, the commit is never reached: the store is
unchanged. -/
theorem checkReminders_store_of_exn_isSome (tr : Transport) (w : World)
    (h : (checkReminders tr w).exn.isSome = true) :
    (checkReminders tr w).store = w.store := by
  have h' : (scanGo tr w.store
      (dueFilter w.store.reminders w.clock)).exn.isSome = true := h
  simp only [checkReminders]
  simp [h']

/-- Referential integrity gives join resolution for every selected
reminder. -/
theorem joinOk_of_storeWF {st : Store} (hwf : storeWF st = true)
    (now : Int) : ∀ r ∈ dueFilter st.reminders now, joinOk st r = true := by
  intro r hrm
  have hmem : r ∈ st.reminders := (List.mem_filter.mp hrm).1
  exact (List.all_eq_true.mp hwf) r hmem

/-! ## Claims -/

/-- Claim C1, counterexample: in a scan over one due email reminder whose
transport raises, the recorded sender outcome is `failed`, yet the committed
store has the reminder `is_sent = true` — the claim that `is_sent` becomes
true only on a successful sender outcome, and stays false on a dispatch
failure, is false of the code. -/
theorem C1_counterexample :
    (checkReminders failTr { store := store1, clock := 100 }).outcomes =
      [(1, some Outcome.failed)] ∧
    (checkReminders failTr { store := store1, clock := 100 }).store.reminders.map
      Reminder.is_sent = [true] := by
  exact ⟨rfl, rfl⟩

/-- Claim C1, amended: whenever a scan invocation completes without an
uncaught exception, every due unsent reminder is marked `is_sent = true` in
the committed store, regardless of the channel sender's outcome — failed
dispatches are not retried by a later scan (at-most-once delivery). -/
theorem C1_due_marked_sent_regardless_of_outcome (tr : Transport) (w : World)
    (r : Reminder) (hr : r ∈ w.store.reminders)
    (hdue : isDue w.clock r = true)
    (hex : (checkReminders tr w).exn = none) :
    { r with is_sent := true } ∈ (checkReminders tr w).store.reminders := by
  rw [checkReminders_store_of_exn_none tr w hex]
  have hmem := List.mem_map_of_mem
    (fun x => if isDue w.clock x then { x with is_sent := true } else x) hr
  simpa [hdue] using hmem

/-- Claim C1, witness for the amended theorem at a concrete input: the due
email reminder of `store1` under an always-failing transport is marked
sent. -/
theorem C1_witness :
    remEmail ∈ store1.reminders ∧ isDue 100 remEmail = true ∧
    (checkReminders failTr { store := store1, clock := 100 }).exn = none ∧
    { remEmail with is_sent := true } ∈
      (checkReminders failTr { store := store1, clock := 100 }).store.reminders :=
  ⟨by decide, by decide, rfl,
    C1_due_marked_sent_regardless_of_outcome failTr
      { store := store1, clock := 100 } remEmail (by decide) (by decide) rfl⟩

/-- Claim C2: under the schema's referential integrity, a scan invocation
hands exactly the reminders with `trigger_at <= now` and `is_sent = false`
to `_dispatch`, once each and in store order, and every reminder outside
that selection is carried to the committed store unchanged. -/
theorem C2_exactly_one_dispatch_per_due (tr : Transport) (w : World)
    (hwf : storeWF w.store = true) :
    (checkReminders tr w).attempts =
      (dueFilter w.store.reminders w.clock).map Reminder.id ∧
    ∀ r ∈ w.store.reminders, isDue w.clock r = false →
      r ∈ (checkReminders tr w).store.reminders := by
  have hall := joinOk_of_storeWF hwf w.clock
  obtain ⟨hexn, hatt⟩ := scanGo_of_all_joinOk tr w.store _ hall
  constructor
  · rw [checkReminders_attempts]
    exact hatt
  · intro r hr hnd
    have hex : (checkReminders tr w).exn = none := by
      rw [checkReminders_exn]
      exact hexn
    rw [checkReminders_store_of_exn_none tr w hex]
    have hmem := List.mem_map_of_mem
      (fun x => if isDue w.clock x then { x with is_sent := true } else x) hr
    simpa [hnd] using hmem

/-- Claim C2, witness at a concrete input: the one due email reminder of
`store1` is attempted exactly once even under a failing transport. -/
theorem C2_witness :
    storeWF store1 = true ∧
    ((checkReminders failTr { store := store1, clock := 100 }).attempts =
      (dueFilter store1.reminders 100).map Reminder.id ∧
     ∀ r ∈ store1.reminders, isDue 100 r = false →
       r ∈ (checkReminders failTr { store := store1, clock := 100 }).store.reminders) :=
  ⟨by decide,
    C2_exactly_one_dispatch_per_due failTr { store := store1, clock := 100 }
      (by decide)⟩

/-- Claim C3, counterexample: `check_reminders` receives no time from its
caller — two invocations over the identical store attempt different
reminders because the function samples the ambient wall clock itself, so its
behaviour is not a function of its caller-supplied inputs. -/
theorem C3_counterexample :
    ({ store := store1, clock := 50 } : World).store =
      ({ store := store1, clock := 200 } : World).store ∧
    (checkReminders okTr { store := store1, clock := 50 }).attempts ≠
      (checkReminders okTr { store := store1, clock := 200 }).attempts := by
  exact ⟨rfl, by decide⟩

/-- Claim C3, amended: the scanner reads `datetime.now(timezone.utc)` itself
instead of taking the time from the caller; still, for a fixed store state
and a fixed sampled clock value the dispatch selection is deterministic — it
does not depend on the transport either. -/
theorem C3_selection_deterministic_in_store_and_clock (tr tr2 : Transport)
    (w w2 : World) (hs : w.store = w2.store) (hc : w.clock = w2.clock) :
    (checkReminders tr w).attempts = (checkReminders tr2 w2).attempts := by
  rw [checkReminders_attempts, checkReminders_attempts, hs, hc]
  exact scanGo_attempts_tr_indep tr tr2 w2.store _

/-- Claim C3, witness for the amended theorem: same store and clock, one
transport failing and one succeeding, same attempt sequence. -/
theorem C3_witness :
    ({ store := store1, clock := 100 } : World).store =
      ({ store := store1, clock := 100 } : World).store ∧
    ({ store := store1, clock := 100 } : World).clock =
      ({ store := store1, clock := 100 } : World).clock ∧
    (checkReminders failTr { store := store1, clock := 100 }).attempts =
      (checkReminders okTr { store := store1, clock := 100 }).attempts :=
  ⟨rfl, rfl,
    C3_selection_deterministic_in_store_and_clock failTr okTr
      { store := store1, clock := 100 } { store := store1, clock := 100 } rfl rfl⟩

/-- Claim C4: the channel senders return normally for every input and every
transport behaviour (all transport errors are caught and converted to a
failed outcome), and consequently a batch whose joins resolve hands every
reminder to `_dispatch` no matter how many dispatches fail. -/
theorem C4_sender_never_raises (tr : Transport) (a b c : String)
    (d : Option Int) (e2 : String) (f : Option Int) (st : Store)
    (l : List Reminder) (h : ∀ r ∈ l, joinOk st r = true) :
    exceptOk (sendEmail tr a b c d) = true ∧
    exceptOk (sendSms tr e2 f) = true ∧
    (scanGo tr st l).attempts = l.map Reminder.id :=
  ⟨sendEmail_ok tr a b c d, sendSms_ok tr e2 f,
    (scanGo_of_all_joinOk tr st l h).2⟩

/-- Claim C4, witness at a concrete input: with every transport call
raising, both senders still return normally and both reminders of the batch
are attempted. -/
theorem C4_witness :
    (∀ r ∈ [remEmail, remPush], joinOk store2 r = true) ∧
    (exceptOk (sendEmail failTr "u@example.com" "Task One" "" none) = true ∧
     exceptOk (sendSms failTr "Task One" none) = true ∧
     (scanGo failTr store2 [remEmail, remPush]).attempts =
       [remEmail, remPush].map Reminder.id) :=
  ⟨by decide,
    C4_sender_never_raises failTr "u@example.com" "Task One" "" none
      "Task One" none store2 [remEmail, remPush] (by decide)⟩

/-- Claim C5, counterexample: with a due reminder whose task row is gone
followed by a healthy due reminder, the scan raises `AttributeError`
(instead of skipping and recording a dispatch error): no outcome is
recorded, the second reminder is never attempted, and nothing is
committed. -/
theorem C5_counterexample :
    (checkReminders failTr { store := storeBroken, clock := 100 }).exn =
      some "AttributeError: NoneType has no attribute owner" ∧
    (checkReminders failTr { store := storeBroken, clock := 100 }).outcomes = [] ∧
    (checkReminders failTr { store := storeBroken, clock := 100 }).attempts = [3] ∧
    (checkReminders failTr { store := storeBroken, clock := 100 }).store =
      storeBroken := by
  exact ⟨rfl, rfl, rfl, rfl⟩

/-- Claim C5, amended: a due reminder with an unresolvable join makes the
scan raise an uncaught exception; the batch aborts and the commit is never
reached, so the whole store — including every other due reminder — is left
unchanged, and the failure is not recorded as a per-reminder dispatch
error. -/
theorem C5_join_failure_raises_and_aborts (tr : Transport) (w : World)
    (hbad : ∃ r ∈ dueFilter w.store.reminders w.clock, joinOk w.store r = false) :
    (checkReminders tr w).exn.isSome = true ∧
    (checkReminders tr w).store = w.store := by
  obtain ⟨r0, hm, hb⟩ := hbad
  have hexn : (scanGo tr w.store
      (dueFilter w.store.reminders w.clock)).exn.isSome = true :=
    scanGo_exn_isSome_of_bad tr w.store _ r0 hm hb
  have h1 : (checkReminders tr w).exn.isSome = true := by
    rw [checkReminders_exn]
    exact hexn
  exact ⟨h1, checkReminders_store_of_exn_isSome tr w h1⟩

/-- Claim C5, witness for the amended theorem at a concrete input. -/
theorem C5_witness :
    (∃ r ∈ dueFilter storeBroken.reminders 100, joinOk storeBroken r = false) ∧
    ((checkReminders failTr { store := storeBroken, clock := 100 }).exn.isSome
        = true ∧
     (checkReminders failTr { store := storeBroken, clock := 100 }).store =
       storeBroken) :=
  ⟨by decide,
    C5_join_failure_raises_and_aborts failTr
      { store := storeBroken, clock := 100 } (by decide)⟩

/-- Claim C6: snoozing an existing reminder of a task owned by the caller by
`n` minutes moves `trigger_at` forward by `n * 60` seconds, resets
`is_sent` to false, leaves the reminder's `id`, `task_id`, `channel` and
`created_at` untouched, and leaves every other reminder row in the store
unchanged. -/
theorem C6_snooze_round_trip (st : Store) (uid tid rid : Nat) (n : Int)
    (t : Task) (r : Reminder) (ht : st.findTaskFor tid uid = some t)
    (hr : st.findReminderIn rid tid = some r) :
    ∃ st2 r2, snoozeReminder st uid tid rid (some n) = SnoozeRes.ok st2 r2 ∧
      r2.trigger_at = r.trigger_at + n * 60 ∧ r2.is_sent = false ∧
      r2.id = r.id ∧ r2.task_id = r.task_id ∧ r2.channel = r.channel ∧
      r2.created_at = r.created_at ∧
      ∀ x ∈ st.reminders, x.id ≠ r.id → x ∈ st2.reminders := by
  unfold snoozeReminder
  rw [ht, hr]
  refine ⟨_, _, rfl, rfl, rfl, rfl, rfl, rfl, rfl, ?_⟩
  intro x hx hne
  have hne' : (x.id == r.id) = false := by
    cases hb : x.id == r.id with
    | false => rfl
    | true => exact absurd (beq_iff_eq.mp hb) hne
  apply List.mem_map.mpr
  exact ⟨x, hx, by simp [hne']⟩

/-- Claim C6, witness at a concrete input: snoozing the reminder of `store1`
by 15 minutes. -/
theorem C6_witness :
    store1.findTaskFor 1 1 = some task1 ∧
    store1.findReminderIn 1 1 = some remEmail ∧
    (∃ st2 r2, snoozeReminder store1 1 1 1 (some 15) = SnoozeRes.ok st2 r2 ∧
      r2.trigger_at = remEmail.trigger_at + 15 * 60 ∧ r2.is_sent = false ∧
      r2.id = remEmail.id ∧ r2.task_id = remEmail.task_id ∧
      r2.channel = remEmail.channel ∧ r2.created_at = remEmail.created_at ∧
      ∀ x ∈ store1.reminders, x.id ≠ remEmail.id → x ∈ st2.reminders) :=
  ⟨rfl, rfl, C6_snooze_round_trip store1 1 1 1 15 task1 remEmail rfl rfl⟩

/-- Claim C7: under the schema's referential integrity, running the scanner
a second time with the same clock value and an unchanged-in-between store
hands nothing to `_dispatch`: the first run marked every selected reminder
sent, so the second run's selection is empty. -/
theorem C7_second_scan_attempts_nothing (tr tr2 : Transport) (w : World)
    (hwf : storeWF w.store = true) :
    (checkReminders tr2
      { store := (checkReminders tr w).store, clock := w.clock }).attempts
      = [] := by
  have hall := joinOk_of_storeWF hwf w.clock
  have hexn := (scanGo_of_all_joinOk tr w.store _ hall).1
  have hex : (checkReminders tr w).exn = none := by
    rw [checkReminders_exn]
    exact hexn
  have hst := checkReminders_store_of_exn_none tr w hex
  have hdue : dueFilter (checkReminders tr w).store.reminders w.clock = [] := by
    unfold dueFilter
    rw [hst, List.filter_eq_nil_iff]
    intro a ha
    obtain ⟨b, hb, rfl⟩ := List.mem_map.mp ha
    by_cases hdb : isDue w.clock b
    · rw [if_pos hdb]
      simp [isDue]
    · rw [if_neg hdb]
      exact hdb
  rw [checkReminders_attempts]
  show (scanGo tr2 (checkReminders tr w).store
    (dueFilter (checkReminders tr w).store.reminders w.clock)).attempts = []
  rw [hdue]
  rfl

/-- Claim C7, witness at a concrete input: after scanning `store1` at clock
100, a second scan at clock 100 attempts nothing. -/
theorem C7_witness :
    storeWF store1 = true ∧
    (checkReminders okTr
      { store := (checkReminders failTr { store := store1, clock := 100 }).store,
        clock := 100 }).attempts = [] :=
  ⟨by decide,
    C7_second_scan_attempts_nothing failTr okTr
      { store := store1, clock := 100 } (by decide)⟩

/-- Note create payload with content `" hi "`. -/
def notePayloadHi : NotePayload :=
  { title := some "t"
    content := some " hi "
    color := none
    is_pinned := none
    task_id := none }

/-- Note update payload whose content is whitespace only. -/
def notePayloadWs : NotePayload :=
  { title := none
    content := some "   "
    color := none
    is_pinned := none
    task_id := none }

/-- The note row `create_note 1 notePayloadHi` commits. -/
def noteHi : Note :=
  { user_id := 1
    task_id := none
    title := "t"
    content := "hi"
    color := "yellow"
    is_pinned := false }

/-- The note row the whitespace-only update leaves behind: empty content. -/
def noteEmptied : Note :=
  { user_id := 1
    task_id := none
    title := "t"
    content := ""
    color := "yellow"
    is_pinned := false }

/-- Claim C8, counterexample: a note created with valid content and then
updated with a whitespace-only content payload is accepted by `update_note`
and ends up persisted with empty content — the update path does not preserve
the non-empty-after-trim invariant. -/
theorem C8_counterexample :
    createNote 1 notePayloadHi = NoteRes.ok noteHi ∧
    updateNote noteHi notePayloadWs = NoteRes.ok noteEmptied ∧
    noteEmptied.content = "" := by
  exact ⟨rfl, rfl, rfl⟩

/-- Claim C8, amended: note creation does reject missing or whitespace-only
content, so every note persisted through `create_note` has non-empty
content; note update re-strips but does not re-validate, so the invariant
can be broken by an update (see the counterexample). -/
theorem C8_create_enforces_nonempty_content (uid : Nat) (data : NotePayload)
    (n : Note) (h : createNote uid data = NoteRes.ok n) : n.content ≠ "" := by
  unfold createNote at h
  by_cases h1 : (pyStrip (data.content.getD "") == "")
  · rw [if_pos h1] at h
    exact NoteRes.noConfusion h
  · rw [if_neg h1] at h
    by_cases h2 : !(VALID_COLORS.contains (data.color.getD "yellow"))
    · rw [if_pos h2] at h
      exact NoteRes.noConfusion h
    · rw [if_neg h2] at h
      have hn := NoteRes.ok.inj h
      subst hn
      intro hc
      exact h1 (beq_iff_eq.mpr hc)

/-- Claim C8, witness for the amended theorem at a concrete input. -/
theorem C8_witness :
    createNote 1 notePayloadHi = NoteRes.ok noteHi ∧ noteHi.content ≠ "" :=
  ⟨rfl, C8_create_enforces_nonempty_content 1 notePayloadHi noteHi rfl⟩

/-- Task create payload with `is_recurring = false` carrying an invalid
recurrence rule. -/
def taskPayloadStray : TaskPayload :=
  { title := some "x"
    description := none
    due_date := none
    priority := none
    status := none
    is_recurring := some false
    recurrence_rule := some "hourly" }

/-- Task create payload with `is_recurring = true` and a valid rule. -/
def taskPayloadRecurring : TaskPayload :=
  { title := some "x"
    description := none
    due_date := none
    priority := none
    status := none
    is_recurring := some true
    recurrence_rule := some "daily" }

/-- The task row `create_task 1 taskPayloadStray` commits: non-recurring,
yet carrying the stray rule. -/
def taskStray : Task :=
  { id := 0
    user_id := 1
    title := "x"
    description := ""
    due_date := none
    priority := "medium"
    status := "pending"
    is_recurring := false
    recurrence_rule := some "hourly" }

/-- Claim C9, counterexample: a payload with `is_recurring = false` and
`recurrence_rule = "hourly"` (not a valid rule) passes validation with no
errors and `create_task` persists the stray rule — so validation does not
enforce the backward direction of the claimed iff. -/
theorem C9_counterexample :
    validate_task_payload taskPayloadStray = [] ∧
    createTask 1 taskPayloadStray = TaskRes.ok taskStray ∧
    taskStray.is_recurring = false ∧
    taskStray.recurrence_rule = some "hourly" := by
  exact ⟨rfl, rfl, rfl, rfl⟩

/-- Claim C9, amended: validation enforces only the forward direction — a
payload that passes validation and has `is_recurring = true` necessarily
carries a `recurrence_rule` in `VALID_RECURRENCE` (absent or invalid rules
are rejected); a non-recurring payload may carry any rule, which is stored
as sent (see the counterexample). -/
theorem C9_recurring_true_needs_valid_rule (data : TaskPayload)
    (h : validate_task_payload data = [])
    (hrec : data.is_recurring = some true) :
    ∃ rule, data.recurrence_rule = some rule ∧
      VALID_RECURRENCE.contains rule = true := by
  unfold validate_task_payload at h
  have h4 := (List.append_eq_nil.mp h).2
  rw [hrec] at h4
  simp only [Option.getD_some, Bool.true_and] at h4
  cases hrv : ruleValid data.recurrence_rule with
  | false => simp [hrv] at h4
  | true =>
    cases ho : data.recurrence_rule with
    | none =>
      rw [ho] at hrv
      simp [ruleValid] at hrv
    | some rule =>
      rw [ho] at hrv
      exact ⟨rule, rfl, hrv⟩

/-- Claim C9, witness for the amended theorem at a concrete input. -/
theorem C9_witness :
    validate_task_payload taskPayloadRecurring = [] ∧
    taskPayloadRecurring.is_recurring = some true ∧
    ∃ rule, taskPayloadRecurring.recurrence_rule = some rule ∧
      VALID_RECURRENCE.contains rule = true :=
  ⟨rfl, rfl, C9_recurring_true_needs_valid_rule taskPayloadRecurring rfl rfl⟩

/-- Claim C10: a snooze request without a `minutes` key (or without a body)
shifts `trigger_at` by the default 10 minutes, and every integer value of
`minutes` — zero and negatives included — is accepted without validation and
applied literally. -/
theorem C10_snooze_default_ten_no_validation (st : Store)
    (uid tid rid : Nat) (t : Task) (r : Reminder)
    (ht : st.findTaskFor tid uid = some t)
    (hr : st.findReminderIn rid tid = some r) :
    (∃ st2 r2, snoozeReminder st uid tid rid none = SnoozeRes.ok st2 r2 ∧
       r2.trigger_at = r.trigger_at + 10 * 60 ∧ r2.is_sent = false) ∧
    ∀ m : Int, ∃ st2 r2,
       snoozeReminder st uid tid rid (some m) = SnoozeRes.ok st2 r2 ∧
       r2.trigger_at = r.trigger_at + m * 60 ∧ r2.is_sent = false := by
  unfold snoozeReminder
  rw [ht, hr]
  exact ⟨⟨_, _, rfl, rfl, rfl⟩, fun m => ⟨_, _, rfl, rfl, rfl⟩⟩

/-- Claim C10, witness at a concrete input (the universally quantified part
of the conclusion covers zero and negative minutes). -/
theorem C10_witness :
    store1.findTaskFor 1 1 = some task1 ∧
    store1.findReminderIn 1 1 = some remEmail ∧
    ((∃ st2 r2, snoozeReminder store1 1 1 1 none = SnoozeRes.ok st2 r2 ∧
        r2.trigger_at = remEmail.trigger_at + 10 * 60 ∧ r2.is_sent = false) ∧
     ∀ m : Int, ∃ st2 r2,
        snoozeReminder store1 1 1 1 (some m) = SnoozeRes.ok st2 r2 ∧
        r2.trigger_at = remEmail.trigger_at + m * 60 ∧ r2.is_sent = false) :=
  ⟨rfl, rfl,
    C10_snooze_default_ten_no_validation store1 1 1 1 task1 remEmail rfl rfl⟩

end Pinkys
